import Mathlib

/-!
Shallow embedding of the FinTechX core (Session Authority, Batch Execution
Engine, Fraud Rule Engine) from `src/fintechx_desktop/app/`.  Time is modelled
as `Nat` minutes, monetary amounts as `ℚ`, dictionaries as association lists
with Python-dict (insert-or-overwrite, insertion-order) semantics, and
Python exceptions as `Except String`.
-/

set_option autoImplicit false

/-- Python-dict lookup over an association list (first match). -/
def dictGet {α : Type} (l : List (String × α)) (k : String) : Option α :=
  (l.find? (fun p => p.1 == k)).map (fun p => p.2)

/-- Python-dict assignment: overwrite in place if the key exists, else append. -/
def dictSet {α : Type} (l : List (String × α)) (k : String) (v : α) :
    List (String × α) :=
  if l.any (fun p => p.1 == k) then
    l.map (fun p => if p.1 == k then (k, v) else p)
  else
    l ++ [(k, v)]

/-! ## Fraud Rule Engine (`fraud_detection.py`) -/

/-- `FraudRiskLevel` enum (`fraud_detection.py` lines 8-11). -/
inductive FraudRiskLevel where
  | LOW
  | MEDIUM
  | HIGH
deriving DecidableEq, Repr

/-- Transaction input consumed by the fraud rules: a record of the optional
fields the rules read via `transaction.get`. -/
structure Transaction where
  amount : Option ℚ
  country : Option String
  merchant : Option String
  description : Option String
  card_id : Option String
  timestamp : Option Nat
deriving Repr

/-- `AmountThresholdRule` state (`fraud_detection.py` lines 24-30). -/
structure AmountThresholdRule where
  threshold : ℚ
deriving Repr

/-- `AmountThresholdRule.evaluate` (`fraud_detection.py` lines 32-36). -/
def AmountThresholdRule.evaluate (r : AmountThresholdRule) (tx : Transaction) :
    Bool × FraudRiskLevel × String :=
  let amount := tx.amount.getD 0
  if amount > r.threshold then
    (true, FraudRiskLevel.MEDIUM,
      "Transaction amount ($" ++ toString amount ++ ") exceeds threshold ($"
        ++ toString r.threshold ++ ")")
  else
    (false, FraudRiskLevel.LOW, "")

/-- `VelocityCheckRule` state (`fraud_detection.py` lines 54-62):
`max_transactions`, `time_window` (minutes), and the per-entity
`transaction_history` mapping card id to a list of timestamps. -/
structure VelocityCheckRule where
  max_transactions : Nat
  time_window : Nat
  transaction_history : List (String × List Nat)
deriving Repr

/-- `VelocityCheckRule.__init__` (`fraud_detection.py` lines 55-62). -/
def VelocityCheckRule.init (max_transactions time_window_minutes : Nat) :
    VelocityCheckRule :=
  { max_transactions := max_transactions
    time_window := time_window_minutes
    transaction_history := [] }

/-- `VelocityCheckRule.evaluate` (`fraud_detection.py` lines 64-84).
`now` stands for `datetime.now()`, the default used when the transaction
carries no timestamp.  Returns the rule outcome together with the updated
rule state (the Python method mutates `self.transaction_history`). -/
def VelocityCheckRule.evaluate (r : VelocityCheckRule) (tx : Transaction)
    (now : Nat) : (Bool × FraudRiskLevel × String) × VelocityCheckRule :=
  match tx.card_id with
  | none => ((false, FraudRiskLevel.LOW, ""), r)
  | some card_id =>
    if card_id = "" then ((false, FraudRiskLevel.LOW, ""), r)
    else
      let timestamp := tx.timestamp.getD now
      let history := (dictGet r.transaction_history card_id).getD []
      let appended := history ++ [timestamp]
      let cutoff_time := timestamp - r.time_window
      let recent_transactions := appended.filter (fun t => cutoff_time ≤ t)
      let r' := { r with
        transaction_history :=
          dictSet r.transaction_history card_id recent_transactions }
      if recent_transactions.length > r.max_transactions then
        ((true, FraudRiskLevel.HIGH,
          "Velocity check: " ++ toString recent_transactions.length
            ++ " transactions in " ++ toString r.time_window ++ " minutes"), r')
      else
        ((false, FraudRiskLevel.LOW, ""), r')

/-- A rule as seen by the engine: a name and an `evaluate` that either returns
`(triggered, risk_level, message)` or raises (`Except.error`). -/
structure EngineRule where
  name : String
  eval : Transaction → Except String (Bool × FraudRiskLevel × String)

/-- One entry of the list returned by `evaluate_transaction`
(`fraud_detection.py` lines 142-146). -/
structure RuleOutcome where
  rule_name : String
  risk_level : FraudRiskLevel
  message : String
deriving DecidableEq, Repr

/-- `FraudDetectionEngine.evaluate_transaction` (`fraud_detection.py`
lines 133-161): every rule is evaluated in registration order; a rule that
raises is caught and contributes nothing; the outcomes of the triggered rules
are collected in order. -/
def evaluate_transaction (rules : List EngineRule) (tx : Transaction) :
    List RuleOutcome :=
  rules.foldl
    (fun results rule =>
      match rule.eval tx with
      | Except.ok (triggered, risk_level, message) =>
          if triggered then
            results ++ [{ rule_name := rule.name, risk_level := risk_level,
                          message := message }]
          else results
      | Except.error _ => results)
    []

/-! ## Batch Execution Engine (`batch_processing.py`) -/

/-- `BatchStatus` enum (`batch_processing.py` lines 12-17). -/
inductive BatchStatus where
  | PENDING
  | PROCESSING
  | COMPLETED
  | FAILED
  | PartiallyCompleted
deriving DecidableEq, Repr

/-- `BatchType` enum (`batch_processing.py` lines 20-26). -/
inductive BatchType where
  | PAYMENT
  | REFUND
  | TRANSFER
  | CARD_ISSUANCE
  | CUSTOMER_IMPORT
  | MERCHANT_IMPORT
deriving DecidableEq, Repr

/-- String label of a `BatchType` (the enum `.value`). -/
def BatchType.value : BatchType → String
  | PAYMENT => "Payment"
  | REFUND => "Refund"
  | TRANSFER => "Transfer"
  | CARD_ISSUANCE => "Card Issuance"
  | CUSTOMER_IMPORT => "Customer Import"
  | MERCHANT_IMPORT => "Merchant Import"

/-- `BatchItem` (`batch_processing.py` lines 29-35).  The payload is an
association list of string fields; item-level status is plain text. -/
structure BatchItem where
  id : String
  data : List (String × String)
  status : String
  error_message : Option String
  processed_at : Option Nat
deriving DecidableEq, Repr

/-- `BatchItem.__init__`: fresh item with status `"Pending"`. -/
def BatchItem.init (id : String) (data : List (String × String)) : BatchItem :=
  { id := id
    data := data
    status := "Pending"
    error_message := none
    processed_at := none }

/-- `BatchJob` (`batch_processing.py` lines 59-82). -/
structure BatchJob where
  id : String
  name : String
  batch_type : BatchType
  items : List BatchItem
  description : String
  created_at : Nat
  updated_at : Nat
  started_at : Option Nat
  completed_at : Option Nat
  status : BatchStatus
  total_items : Nat
  processed_items : Nat
  successful_items : Nat
  failed_items : Nat
deriving DecidableEq, Repr

/-- Result dictionary returned by an item processor:
`{"success": bool, "error": str?}` (other fields are ignored by the engine). -/
structure ProcResult where
  success : Bool
  error : Option String
deriving Repr

/-- An item-processing callback `(item.data, batch_type) -> result`, which may
raise (`Except.error`). -/
def Processor : Type :=
  List (String × String) → BatchType → Except String ProcResult

/-- One iteration of the `process_batch` item loop (`batch_processing.py`
lines 162-179): returns the updated item and whether it counted as
successful. -/
def processOneItem (f : Processor) (bt : BatchType) (now : Nat)
    (item : BatchItem) : BatchItem × Bool :=
  match f item.data bt with
  | Except.ok result =>
    if result.success then
      ({ item with status := "Completed", processed_at := some now }, true)
    else
      ({ item with
          status := "Failed"
          error_message := some (result.error.getD "Unknown error")
          processed_at := some now }, false)
  | Except.error e =>
      ({ item with
          status := "Failed"
          error_message := some e
          processed_at := some now }, false)

/-- The `for item in batch_job.items` loop of `process_batch`
(`batch_processing.py` lines 161-181): processes `todo` in order, carrying the
already-processed items and the `(processed, successful, failed)` counters. -/
def process_items (f : Processor) (bt : BatchType) (now : Nat) :
    List BatchItem → List BatchItem → Nat × Nat × Nat →
    List BatchItem × (Nat × Nat × Nat)
  | done, [], counters => (done, counters)
  | done, item :: rest, (p, s, fl) =>
    let step := processOneItem f bt now item
    process_items f bt now (done ++ [step.1]) rest
      (p + 1, s + (if step.2 then 1 else 0), fl + (if step.2 then 0 else 1))

/-- `BatchProcessor.process_batch` (`batch_processing.py` lines 150-191).
`f = none` models the absence of a registered processor function; `now`
stands for `datetime.now()`. -/
def process_batch (f : Option Processor) (now : Nat) (job : BatchJob) :
    BatchJob :=
  match f with
  | none => { job with status := BatchStatus.FAILED, updated_at := now }
  | some f =>
    let res := process_items f job.batch_type now [] job.items
      (job.processed_items, job.successful_items, job.failed_items)
    let fl := res.2.2.2
    let s := res.2.2.1
    let status :=
      if fl = 0 then BatchStatus.COMPLETED
      else if s = 0 then BatchStatus.FAILED
      else BatchStatus.PartiallyCompleted
    { job with
        status := status
        started_at := some now
        items := res.1
        processed_items := res.2.1
        successful_items := s
        failed_items := fl
        completed_at := some now
        updated_at := now }

/-- The job state observed after the loop of `process_batch` has handled the
first `k` items (status `PROCESSING`, `started_at` stamped, counters and the
processed prefix of `items` updated in place). -/
def processingStateAfter (f : Processor) (now : Nat) (job : BatchJob)
    (k : Nat) : BatchJob :=
  let res := process_items f job.batch_type now [] (job.items.take k)
    (job.processed_items, job.successful_items, job.failed_items)
  { job with
      status := BatchStatus.PROCESSING
      started_at := some now
      updated_at := now
      items := res.1 ++ job.items.drop k
      processed_items := res.2.1
      successful_items := res.2.2.1
      failed_items := res.2.2.2 }

/-- `BatchManager.create_batch_job` (`batch_processing.py` lines 251-272):
wraps each raw payload into a fresh `Pending` `BatchItem`.  `jobId` and the
per-item id supply `ids` stand for `uuid.uuid4()`; `now` for
`datetime.now()`. -/
def create_batch_job (jobId : String) (ids : Nat → String) (now : Nat)
    (name : String) (batch_type : BatchType)
    (rawItems : List (List (String × String))) (description : String) :
    BatchJob :=
  let batch_items := rawItems.enum.map (fun pr => BatchItem.init (ids pr.1) pr.2)
  { id := jobId
    name := name
    batch_type := batch_type
    items := batch_items
    description := description
    created_at := now
    updated_at := now
    started_at := none
    completed_at := none
    status := BatchStatus.PENDING
    total_items := batch_items.length
    processed_items := 0
    successful_items := 0
    failed_items := 0 }

/-- Headers of the CSV export (`batch_processing.py` lines 345-351): the four
fixed columns, then one `data_`-prefixed column per key of the first item's
payload. -/
def exportHeaders (job : BatchJob) : List String :=
  ["id", "status", "error_message", "processed_at"] ++
    (match job.items with
     | [] => []
     | item :: _ => item.data.map (fun kv => "data_" ++ kv.1))

/-- The row dictionary built for one item (`batch_processing.py`
lines 356-366). -/
def exportRow (item : BatchItem) : List (String × String) :=
  [("id", item.id), ("status", item.status),
   ("error_message", item.error_message.getD ""),
   ("processed_at", (item.processed_at.map toString).getD "")] ++
    item.data.map (fun kv => ("data_" ++ kv.1, kv.2))

/-- `csv.DictWriter.writerow`: projects the row dictionary onto the header
list (missing fields become `""`); a field outside the headers raises
`ValueError`, modelled as `none`. -/
def writeRow (headers : List String) (row : List (String × String)) :
    Option (List (String × String)) :=
  if row.all (fun kv => headers.contains kv.1) then
    some (headers.map (fun h => (h, (dictGet row h).getD "")))
  else none

/-- The `for item in batch_job.items: writer.writerow(row)` loop: one row per
item, aborting on the first write failure. -/
def writeRows (headers : List String) :
    List BatchItem → Option (List (List (String × String)))
  | [] => some []
  | item :: rest =>
    match writeRow headers (exportRow item), writeRows headers rest with
    | some row, some rows => some (row :: rows)
    | _, _ => none

/-- `BatchManager._export_to_csv` (`batch_processing.py` lines 342-374),
modelled at the level of structured rows (the spec leaves the exact text
encoding out of scope): returns the headers and one row dictionary per item,
or `none` when writing fails. -/
def export_to_csv (job : BatchJob) :
    Option (List String × List (List (String × String))) :=
  let headers := exportHeaders job
  match writeRows headers job.items with
  | some rows => some (headers, rows)
  | none => none

/-- Python's `str.startswith`, modelled on the character lists underlying the
strings. -/
def startswith (s pre : String) : Bool :=
  pre.data.isPrefixOf s.data

/-- The per-row payload filter of `import_batch_from_csv`
(`batch_processing.py` lines 401-410): keeps exactly the columns whose header
does not start with `id`, `status`, `error` or `processed`. -/
def import_row_data (row : List (String × String)) : List (String × String) :=
  row.filter (fun kv =>
    !(startswith kv.1 "id") && !(startswith kv.1 "status") &&
      !(startswith kv.1 "error") && !(startswith kv.1 "processed"))

/-- `BatchManager.import_batch_from_csv` (`batch_processing.py`
lines 387-425), modelled at the level of structured rows: filters each row's
columns, defaults the job name, and creates a fresh job from the resulting
payloads. -/
def import_batch_from_csv (jobId : String) (ids : Nat → String) (now : Nat)
    (rows : List (List (String × String))) (batch_type : BatchType)
    (name : Option String) (description : String) : BatchJob :=
  let items := rows.map import_row_data
  let name := name.getD
    ("Imported " ++ batch_type.value ++ " Batch - " ++ toString now)
  create_batch_job jobId ids now name batch_type items description

/-- The list of per-item statuses of a job, in item order. -/
def itemStatuses (job : BatchJob) : List String :=
  job.items.map (fun it => it.status)

/-! ## Session Authority (`auth.py`)

Password hashing (`_hash_password`, PBKDF2) is kept abstract: the functions
below are parametric in a deterministic `hash : password → salt → digest`
function, exactly the way `authenticate` and `create_user` consume it. -/

/-- The fields of `User` (`auth.py` lines 75-103) that the authentication and
lockout logic reads or writes. -/
structure User where
  id : String
  username : String
  email : String
  password_hash : String
  salt : String
  active : Bool
  failed_login_attempts : Nat
  locked_until : Option Nat
deriving DecidableEq, Repr

/-- `User.is_locked` (`auth.py` lines 119-122). -/
def User.is_locked (u : User) (now : Nat) : Bool :=
  match u.locked_until with
  | none => false
  | some t => now < t

/-- An entry of `AuthManager.active_sessions` (`auth.py` lines 261-265). -/
structure Session where
  user_id : String
  created_at : Nat
  expires_at : Nat
deriving DecidableEq, Repr

/-- `AuthManager` state (`auth.py` lines 186-194).  The `users` dict keyed by
id is modelled as the list of its values in insertion order (ids are
`uuid.uuid4()` and hence distinct); `active_sessions` keeps Python-dict
semantics via `dictSet`/`dictGet`.  Durations are in the same `Nat` time unit
as timestamps (minutes: lockout 15, session timeout 8 hours = 480). -/
structure AuthManager where
  users : List User
  active_sessions : List (String × Session)
  max_failed_attempts : Nat
  lockout_duration : Nat
  session_timeout : Nat
deriving Repr

/-- `AuthManager.__init__` with the default configuration. -/
def AuthManager.init (users : List User) : AuthManager :=
  { users := users
    active_sessions := []
    max_failed_attempts := 5
    lockout_duration := 15
    session_timeout := 480 }

/-- Python's `str.lower`, modelled on the character lists underlying the
strings. -/
def lower (s : String) : String :=
  String.mk (s.data.map Char.toLower)

/-- `AuthManager.get_user_by_username` (`auth.py` lines 291-295): first user
whose username matches case-insensitively, in table order. -/
def get_user_by_username (users : List User) (username : String) :
    Option User :=
  users.find? (fun u => lower u.username == lower username)

/-- `AuthManager.get_user_by_email` (`auth.py` lines 297-301). -/
def get_user_by_email (users : List User) (email : String) : Option User :=
  users.find? (fun u => lower u.email == lower email)

/-- `AuthManager.get_user` (`auth.py` lines 288-289): dict lookup by id. -/
def get_user (users : List User) (user_id : String) : Option User :=
  users.find? (fun u => u.id == user_id)

/-- In-place mutation of the user object held by the `users` dict: the entry
with the given id is replaced by `f` applied to it. -/
def updateUser (users : List User) (user_id : String) (f : User → User) :
    List User :=
  users.map (fun u => if u.id == user_id then f u else u)

/-- `AuthManager.authenticate` (`auth.py` lines 228-268).  `hash` stands for
`self._hash_password`, `now` for `datetime.now()`, and `sid` for the freshly
drawn `uuid.uuid4()` session id.  Returns the session id (or `None`) and the
updated manager state. -/
def authenticate (hash : String → String → String) (m : AuthManager)
    (username password : String) (now : Nat) (sid : String) :
    Option String × AuthManager :=
  match get_user_by_username m.users username with
  | none => (none, m)
  | some user =>
    if user.active = false then (none, m)
    else if user.is_locked now then (none, m)
    else
      let password_hash := hash password user.salt
      if password_hash ≠ user.password_hash then
        let attempts := user.failed_login_attempts + 1
        let lockedUntil :=
          if m.max_failed_attempts ≤ attempts then
            some (now + m.lockout_duration)
          else user.locked_until
        (none, { m with
          users := updateUser m.users user.id (fun u =>
            { u with
                failed_login_attempts := attempts
                locked_until := lockedUntil }) })
      else
        let users' := updateUser m.users user.id (fun u =>
          { u with failed_login_attempts := 0 })
        let session : Session :=
          { user_id := user.id
            created_at := now
            expires_at := now + m.session_timeout }
        (some sid, { m with
          users := users'
          active_sessions := dictSet m.active_sessions sid session })

/-- `AuthManager.validate_session` (`auth.py` lines 270-280): unknown session
ids yield `None`; expired sessions are deleted lazily on check. -/
def validate_session (m : AuthManager) (sid : String) (now : Nat) :
    Option String × AuthManager :=
  match dictGet m.active_sessions sid with
  | none => (none, m)
  | some session =>
    if session.expires_at < now then
      (none, { m with
        active_sessions := m.active_sessions.filter (fun p => p.1 ≠ sid) })
    else
      (some session.user_id, m)

/-- `AuthManager.unlock_user` (`auth.py` lines 428-439). -/
def unlock_user (m : AuthManager) (user_id : String) : Bool × AuthManager :=
  match get_user m.users user_id with
  | none => (false, m)
  | some _ =>
    (true, { m with
      users := updateUser m.users user_id (fun u =>
        { u with
            locked_until := none
            failed_login_attempts := 0 }) })

/-- `AuthManager.create_user` (`auth.py` lines 196-226).  `salt` stands for
the freshly drawn `os.urandom(32).hex()` and `freshId` for the new user's
`uuid.uuid4()`. -/
def create_user (hash : String → String → String) (m : AuthManager)
    (username email password : String) (salt freshId : String) :
    Option String × AuthManager :=
  if (get_user_by_username m.users username).isSome
      || (get_user_by_email m.users email).isSome then
    (none, m)
  else
    let user : User :=
      { id := freshId
        username := username
        email := email
        password_hash := hash password salt
        salt := salt
        active := true
        failed_login_attempts := 0
        locked_until := none }
    (some freshId, { m with users := m.users ++ [user] })

/-- `n` consecutive `authenticate` calls with the same username and password,
at the listed times (the drawn session ids are irrelevant on failed attempts
and fixed to `""`). -/
def authAttempts (hash : String → String → String) (m : AuthManager)
    (username password : String) : List Nat → AuthManager
  | [] => m
  | t :: ts =>
    authAttempts hash (authenticate hash m username password t "").2
      username password ts

/-! ## Helper lemmas -/

theorem dictGet_dictSet {α : Type} (l : List (String × α)) (k : String)
    (v : α) : dictGet (dictSet l k v) k = some v := by
  unfold dictSet
  by_cases h : l.any (fun p => p.1 == k)
  · simp only [h, if_true]
    induction l with
    | nil => simp at h
    | cons p t ih =>
      by_cases hp : p.1 == k
      · simp [dictGet, List.find?, hp]
      · have ht : t.any (fun p => p.1 == k) = true := by
          simp only [List.any_cons, hp, Bool.false_or] at h
          exact h
        have := ih ht
        simp only [dictGet, List.map_cons, List.find?] at this ⊢
        simp only [hp, if_neg, Bool.false_eq_true] at this ⊢
        simpa [hp] using this
  · simp only [h, if_false]
    rw [Bool.not_eq_true] at h
    rename' h => h'
    induction l with
    | nil => simp [dictGet, List.find?]
    | cons p t ih =>
      simp only [List.any_cons, Bool.or_eq_false_iff] at h'
      have := ih h'.2
      simp only [List.cons_append, dictGet, List.find?, h'.1] at this ⊢
      exact this

/-- The outcome a single rule contributes to `evaluate_transaction`: `some`
exactly when its `evaluate` returns without raising and reports
`triggered = true`. -/
def triggeredOutcome (tx : Transaction) (rule : EngineRule) :
    Option RuleOutcome :=
  match rule.eval tx with
  | Except.ok (true, risk_level, message) =>
      some { rule_name := rule.name, risk_level := risk_level,
             message := message }
  | Except.ok (false, _, _) => none
  | Except.error _ => none

theorem evaluate_transaction_foldl_eq (tx : Transaction)
    (rules : List EngineRule) (acc : List RuleOutcome) :
    rules.foldl
      (fun results rule =>
        match rule.eval tx with
        | Except.ok (triggered, risk_level, message) =>
            if triggered then
              results ++ [{ rule_name := rule.name, risk_level := risk_level,
                            message := message }]
            else results
        | Except.error _ => results)
      acc = acc ++ rules.filterMap (triggeredOutcome tx) := by
  induction rules generalizing acc with
  | nil => simp
  | cons r rs ih =>
    simp only [List.foldl_cons, List.filterMap_cons]
    cases hr : r.eval tx with
    | error e => simp [hr, triggeredOutcome, ih]
    | ok v =>
      obtain ⟨t, risk, msg⟩ := v
      cases t
      · simp [hr, triggeredOutcome, ih]
      · simp [hr, triggeredOutcome, ih]

theorem evaluate_transaction_eq_filterMap (rules : List EngineRule)
    (tx : Transaction) :
    evaluate_transaction rules tx = rules.filterMap (triggeredOutcome tx) := by
  have := evaluate_transaction_foldl_eq tx rules []
  simpa [evaluate_transaction] using this

theorem process_items_spec (f : Processor) (bt : BatchType) (now : Nat)
    (todo : List BatchItem) : ∀ (done : List BatchItem) (p s fl : Nat),
    process_items f bt now done todo (p, s, fl) =
      (done ++ todo.map (fun it => (processOneItem f bt now it).1),
        (p + todo.length,
          s + (todo.filter (fun it => (processOneItem f bt now it).2)).length,
          fl + (todo.filter
            (fun it => !(processOneItem f bt now it).2)).length)) := by
  induction todo with
  | nil => intro done p s fl; simp [process_items]
  | cons item rest ih =>
    intro done p s fl
    rw [process_items, ih]
    cases hb : (processOneItem f bt now item).2 <;>
      simp [List.filter_cons, hb] <;> omega

theorem writeRows_some_length (headers : List String) :
    ∀ (items : List BatchItem) (rows : List (List (String × String))),
    writeRows headers items = some rows → rows.length = items.length := by
  intro items
  induction items with
  | nil => intro rows h; simp [writeRows] at h; simp [← h]
  | cons item rest ih =>
    intro rows h
    rw [writeRows] at h
    cases hg : writeRow headers (exportRow item) with
    | none => rw [hg] at h; simp at h
    | some row =>
      rw [hg] at h
      cases ht : writeRows headers rest with
      | none => rw [ht] at h; simp at h
      | some rs =>
        rw [ht] at h
        simp only [Option.some.injEq] at h
        subst h
        simp [ih rs ht]

/-! ## Claim theorems: Fraud Rule Engine -/

/-- C9: for every transaction, the amount-threshold rule does not trigger
when the amount equals the configured threshold, and triggers with Medium
risk when the amount is any positive increment above the threshold. -/
theorem C9_amount_threshold_boundary (r : AmountThresholdRule)
    (txEq txAbove : Transaction) (eps : ℚ)
    (heq : txEq.amount = some r.threshold)
    (habove : txAbove.amount = some (r.threshold + eps)) (heps : 0 < eps) :
    AmountThresholdRule.evaluate r txEq = (false, FraudRiskLevel.LOW, "")
      ∧ (AmountThresholdRule.evaluate r txAbove).1 = true
      ∧ (AmountThresholdRule.evaluate r txAbove).2.1
          = FraudRiskLevel.MEDIUM := by
  unfold AmountThresholdRule.evaluate
  rw [heq, habove]
  simp only [Option.getD_some]
  refine ⟨?_, ?_⟩
  · rw [if_neg (lt_irrefl r.threshold)]
  · rw [if_pos (by linarith : r.threshold < r.threshold + eps)]
    exact ⟨rfl, rfl⟩

/-- C9 witness: with the default threshold of 1000 dollars, an amount of
exactly 1000 does not trigger and 1000.01 triggers Medium. -/
theorem C9_amount_threshold_boundary_witness :
    AmountThresholdRule.evaluate ⟨1000⟩
        ⟨some 1000, none, none, none, none, none⟩
        = (false, FraudRiskLevel.LOW, "")
      ∧ (AmountThresholdRule.evaluate ⟨1000⟩
          ⟨some (1000 + 1/100), none, none, none, none, none⟩).1 = true
      ∧ (AmountThresholdRule.evaluate ⟨1000⟩
          ⟨some (1000 + 1/100), none, none, none, none, none⟩).2.1
          = FraudRiskLevel.MEDIUM :=
  C9_amount_threshold_boundary ⟨1000⟩ _ _ (1/100) rfl rfl (by norm_num)

/-- C8: if one rule's `evaluate` raises, that rule is treated as
non-triggering for that transaction only, the remaining rules are still
evaluated, and `evaluate_transaction` returns the outcomes of exactly the
triggered rules in registration order, without raising. -/
theorem C8_rule_fault_isolation (rules1 rules2 : List EngineRule)
    (bad : EngineRule) (tx : Transaction) (e : String)
    (hbad : bad.eval tx = Except.error e) :
    evaluate_transaction (rules1 ++ bad :: rules2) tx
        = evaluate_transaction (rules1 ++ rules2) tx
      ∧ evaluate_transaction (rules1 ++ bad :: rules2) tx
        = (rules1 ++ bad :: rules2).filterMap (triggeredOutcome tx) := by
  have hnone : triggeredOutcome tx bad = none := by
    unfold triggeredOutcome
    rw [hbad]
  refine ⟨?_, evaluate_transaction_eq_filterMap _ tx⟩
  rw [evaluate_transaction_eq_filterMap, evaluate_transaction_eq_filterMap]
  simp [List.filterMap_append, List.filterMap_cons, hnone]

/-- A rule that always triggers, used to witness C8. -/
def ruleFlagAll : EngineRule :=
  { name := "flag-all", eval := fun _ => Except.ok (true, FraudRiskLevel.MEDIUM, "m") }

/-- A second always-triggering rule, used to witness C8. -/
def ruleFlagAll2 : EngineRule :=
  { name := "flag-all-2", eval := fun _ => Except.ok (true, FraudRiskLevel.HIGH, "h") }

/-- A rule whose `evaluate` raises, used to witness C8. -/
def ruleRaise : EngineRule :=
  { name := "raising-rule", eval := fun _ => Except.error "boom" }

/-- The all-absent transaction, used by concrete instances. -/
def emptyTx : Transaction := ⟨none, none, none, none, none, none⟩

/-- C8 witness: a raising rule placed between two triggering rules is skipped
and the other two rules' outcomes are returned in order. -/
theorem C8_rule_fault_isolation_witness :
    evaluate_transaction ([ruleFlagAll] ++ ruleRaise :: [ruleFlagAll2]) emptyTx
        = evaluate_transaction ([ruleFlagAll] ++ [ruleFlagAll2]) emptyTx
      ∧ evaluate_transaction ([ruleFlagAll] ++ ruleRaise :: [ruleFlagAll2])
          emptyTx
        = ([ruleFlagAll] ++ ruleRaise :: [ruleFlagAll2]).filterMap
            (triggeredOutcome emptyTx) :=
  C8_rule_fault_isolation [ruleFlagAll] [ruleFlagAll2] ruleRaise emptyTx
    "boom" rfl

/-- C10: on CSV batch import, any column whose header starts with `id`,
`status`, `error` or `processed` is silently excluded from the imported item
payloads — including genuine data columns such as `identifier` or
`status_code` — while all other headers are kept verbatim, so `data_`-prefixed
columns keep the prefix as their field name. -/
theorem C10_import_header_filter (jobId : String) (ids : Nat → String)
    (now : Nat) (rows : List (List (String × String))) (bt : BatchType)
    (name : Option String) (desc : String) :
    ((import_batch_from_csv jobId ids now rows bt name desc).items.map
        (fun it => it.data) = rows.map import_row_data)
      ∧ (∀ (row : List (String × String)) (kv : String × String), kv ∈ row →
          (kv ∈ import_row_data row ↔
            ¬(startswith kv.1 "id" = true ∨ startswith kv.1 "status" = true
              ∨ startswith kv.1 "error" = true
              ∨ startswith kv.1 "processed" = true)))
      ∧ import_row_data
          [("identifier", "x"), ("status_code", "y"), ("data_amount", "5"),
           ("processed_at", "t"), ("error_message", "e"), ("id", "i")]
          = [("data_amount", "5")] := by
  refine ⟨?_, ?_, by decide⟩
  · unfold import_batch_from_csv create_batch_job
    simp only [List.map_map]
    have : ((fun it => BatchItem.data it) ∘
        fun pr : Nat × List (String × String) =>
          BatchItem.init (ids pr.1) pr.2) = Prod.snd := by
      funext pr
      rfl
    rw [this]
    exact List.enum_map_snd _
  · intro row kv hkv
    unfold import_row_data
    rw [List.mem_filter]
    simp only [hkv, true_and, Bool.and_eq_true, Bool.not_eq_true']
    constructor
    · intro h hc
      rcases hc with hc | hc | hc | hc <;> simp [hc] at h
    · intro h
      refine ⟨⟨⟨?_, ?_⟩, ?_⟩, ?_⟩ <;>
        simp only [Bool.eq_false_iff] <;> intro hc <;> exact h (by tauto)

/-- C10 witness: a concrete row with an `identifier` column, a `status_code`
column and a `data_amount` column keeps only the latter, and the `data_`
prefix survives as the imported field name. -/
theorem C10_import_header_filter_witness :
    ((import_batch_from_csv "j" (fun _ => "i") 0
        [[("identifier", "x"), ("data_amount", "5")]] BatchType.PAYMENT
        none "").items.map (fun it => it.data)
      = [[("identifier", "x"), ("data_amount", "5")]].map import_row_data)
      ∧ (("data_amount", "5") ∈
            import_row_data [("identifier", "x"), ("data_amount", "5")] ↔
          ¬(startswith ("data_amount", "5").1 "id" = true
            ∨ startswith ("data_amount", "5").1 "status" = true
            ∨ startswith ("data_amount", "5").1 "error" = true
            ∨ startswith ("data_amount", "5").1 "processed" = true)) :=
  ⟨(C10_import_header_filter "j" (fun _ => "i") 0
      [[("identifier", "x"), ("data_amount", "5")]] BatchType.PAYMENT
      none "").1,
    (C10_import_header_filter "j" (fun _ => "i") 0
      [[("identifier", "x"), ("data_amount", "5")]] BatchType.PAYMENT
      none "").2.1 _ _ (by decide)⟩

/-- A transaction carrying only an entity key and a timestamp, as submitted to
the velocity rule. -/
def velocityTx (cid : String) (t : Nat) : Transaction :=
  { amount := none
    country := none
    merchant := none
    description := none
    card_id := some cid
    timestamp := some t }

theorem velocity_evaluate_spec (r : VelocityCheckRule) (tx : Transaction)
    (cid : String) (ts now : Nat)
    (hcid : tx.card_id = some cid) (hne : cid ≠ "")
    (hts : tx.timestamp = some ts) :
    (dictGet (r.evaluate tx now).2.transaction_history cid =
        some ((((dictGet r.transaction_history cid).getD []) ++ [ts]).filter
          (fun t => ts - r.time_window ≤ t)))
      ∧ ((r.evaluate tx now).1.1 = true ↔
          ((((dictGet r.transaction_history cid).getD []) ++ [ts]).filter
              (fun t => ts - r.time_window ≤ t)).length > r.max_transactions)
      ∧ ((r.evaluate tx now).1.1 = true →
          (r.evaluate tx now).1.2.1 = FraudRiskLevel.HIGH) := by
  unfold VelocityCheckRule.evaluate
  rw [hcid]
  simp only [if_neg hne, hts, Option.getD_some]
  by_cases h : ((((dictGet r.transaction_history cid).getD []) ++ [ts]).filter
      (fun t => ts - r.time_window ≤ t)).length > r.max_transactions
  · rw [if_pos h]
    exact ⟨dictGet_dictSet _ _ _, iff_of_true rfl h, fun _ => rfl⟩
  · rw [if_neg h]
    exact ⟨dictGet_dictSet _ _ _, iff_of_false (by simp) h,
      fun hc => (Bool.false_ne_true hc).elim⟩

set_option maxHeartbeats 1600000 in
/-- C2: on every evaluation of a transaction carrying an entity key, the
velocity rule appends the transaction's timestamp to that entity's history,
retains only timestamps at least `timestamp - window`, and triggers High risk
exactly when the retained count exceeds the configured maximum.  In
particular, with a 5-minute window and maximum 3, four transactions on one
entity within 4 minutes trigger High on the 4th, and a 5th transaction 10
minutes after the 1st does not count the 1st. -/
theorem C2_velocity_rule (r : VelocityCheckRule) (tx : Transaction)
    (cid : String) (ts now : Nat)
    (hcid : tx.card_id = some cid) (hne : cid ≠ "")
    (hts : tx.timestamp = some ts) :
    (dictGet (r.evaluate tx now).2.transaction_history cid =
        some ((((dictGet r.transaction_history cid).getD []) ++ [ts]).filter
          (fun t => ts - r.time_window ≤ t)))
      ∧ ((r.evaluate tx now).1.1 = true ↔
          ((((dictGet r.transaction_history cid).getD []) ++ [ts]).filter
              (fun t => ts - r.time_window ≤ t)).length > r.max_transactions)
      ∧ ((r.evaluate tx now).1.1 = true →
          (r.evaluate tx now).1.2.1 = FraudRiskLevel.HIGH)
      ∧ ((VelocityCheckRule.init 3 5).evaluate (velocityTx "card-1" 0) 0
            |>.1.1) = false
      ∧ (((VelocityCheckRule.init 3 5).evaluate (velocityTx "card-1" 0) 0
            |>.2.evaluate (velocityTx "card-1" 1) 1
            |>.2.evaluate (velocityTx "card-1" 2) 2
            |>.2.evaluate (velocityTx "card-1" 3) 3
            |>.1.1) = true
          ∧ ((VelocityCheckRule.init 3 5).evaluate (velocityTx "card-1" 0) 0
            |>.2.evaluate (velocityTx "card-1" 1) 1
            |>.2.evaluate (velocityTx "card-1" 2) 2
            |>.2.evaluate (velocityTx "card-1" 3) 3
            |>.1.2.1) = FraudRiskLevel.HIGH)
      ∧ ((VelocityCheckRule.init 3 5).evaluate (velocityTx "card-1" 0) 0
            |>.2.evaluate (velocityTx "card-1" 1) 1
            |>.2.evaluate (velocityTx "card-1" 2) 2
            |>.2.evaluate (velocityTx "card-1" 3) 3
            |>.2.evaluate (velocityTx "card-1" 10) 10
            |>.1.1) = false := by
  obtain ⟨h1, h2, h3⟩ := velocity_evaluate_spec r tx cid ts now hcid hne hts
  exact ⟨h1, h2, h3, by decide, by decide, by decide⟩

/-- C2 witness: the history-update equation at a concrete rule state,
entity key and timestamp. -/
theorem C2_velocity_rule_witness :
    dictGet ((VelocityCheckRule.init 3 5).evaluate (velocityTx "c" 7)
        7).2.transaction_history "c" =
      some ((((dictGet (VelocityCheckRule.init 3 5).transaction_history
          "c").getD []) ++ [7]).filter
        (fun t => 7 - (VelocityCheckRule.init 3 5).time_window ≤ t)) :=
  (C2_velocity_rule (VelocityCheckRule.init 3 5) (velocityTx "c" 7) "c" 7 7
    rfl (by decide) rfl).1

/-! ## Claim theorems: Batch Execution Engine -/

/-- C3: for every batch job with `N` items and fresh (zero) counters run to
completion, the terminal status is `Completed` if no item failed, `Failed` if
no item succeeded (and items existed), otherwise `PartiallyCompleted`; the
counters end at `processed = N`, `failed = k`, `successful = N - k` where `k`
is the number of items the processor fails; in particular `0 < k < N` yields
`PartiallyCompleted`. -/
theorem C3_terminal_status (f : Processor) (now : Nat) (job : BatchJob)
    (h0 : job.processed_items = 0) (h1 : job.successful_items = 0)
    (h2 : job.failed_items = 0) :
    (process_batch (some f) now job).processed_items = job.items.length
      ∧ (process_batch (some f) now job).failed_items =
          (job.items.filter
            (fun it => !(processOneItem f job.batch_type now it).2)).length
      ∧ (process_batch (some f) now job).successful_items =
          job.items.length - (job.items.filter
            (fun it => !(processOneItem f job.batch_type now it).2)).length
      ∧ (process_batch (some f) now job).status =
          (if (job.items.filter
                (fun it => !(processOneItem f job.batch_type now it).2)).length
                = 0
            then BatchStatus.COMPLETED
            else if job.items.length - (job.items.filter
                (fun it => !(processOneItem f job.batch_type now it).2)).length
                = 0
            then BatchStatus.FAILED
            else BatchStatus.PartiallyCompleted)
      ∧ (0 < (job.items.filter
            (fun it => !(processOneItem f job.batch_type now it).2)).length →
          (job.items.filter
            (fun it => !(processOneItem f job.batch_type now it).2)).length
            < job.items.length →
          (process_batch (some f) now job).status
            = BatchStatus.PartiallyCompleted) := by
  have hsum := List.length_eq_length_filter_add
    (l := job.items) (fun it => (processOneItem f job.batch_type now it).2)
  simp only [process_batch]
  rw [process_items_spec]
  simp only [h0, h1, h2, Nat.zero_add]
  set s := (job.items.filter
    (fun it => (processOneItem f job.batch_type now it).2)).length with hs
  set k := (job.items.filter
    (fun it => !(processOneItem f job.batch_type now it).2)).length with hk
  have hsk : s = job.items.length - k := by omega
  refine ⟨trivial, trivial, hsk, ?_, ?_⟩
  · rw [hsk]
  · intro hkpos hklt
    rw [hsk]
    rw [if_neg (by omega), if_neg (by omega)]

/-- A concrete processor failing exactly the items that carry a `fail`
field, used to witness the batch claims. -/
def procFailMarked : Processor := fun data _ =>
  if (dictGet data "fail").isSome then
    Except.ok { success := false, error := some "marked" }
  else
    Except.ok { success := true, error := none }

/-- A concrete two-item job (one item marked to fail), used to witness C3. -/
def jobW : BatchJob :=
  create_batch_job "job-w" (fun n => toString n) 0 "w" BatchType.PAYMENT
    [[("fail", "1")], [("a", "2")]] ""

/-- C3 witness: on the two-item job with exactly one failing item, the run
ends `PartiallyCompleted` with `processed = 2`, `failed = 1`,
`successful = 1`. -/
theorem C3_terminal_status_witness :
    (process_batch (some procFailMarked) 1 jobW).processed_items
        = jobW.items.length
      ∧ (process_batch (some procFailMarked) 1 jobW).status
        = BatchStatus.PartiallyCompleted :=
  ⟨(C3_terminal_status procFailMarked 1 jobW rfl rfl rfl).1,
    (C3_terminal_status procFailMarked 1 jobW rfl rfl rfl).2.2.2.2
      (by decide) (by decide)⟩

/-- C5: for every freshly created batch job, at every point once processing
starts — after each individual item as well as at the end —
`processed_items = successful_items + failed_items` and
`processed_items ≤ total_items`; `total_items` equals the item count fixed at
creation and is never changed by processing. -/
theorem C5_counter_invariants (f : Processor) (jobId : String)
    (ids : Nat → String) (now0 now : Nat) (name : String) (bt : BatchType)
    (raw : List (List (String × String))) (desc : String) (k : Nat) :
    (processingStateAfter f now
        (create_batch_job jobId ids now0 name bt raw desc) k).processed_items
        = (processingStateAfter f now
            (create_batch_job jobId ids now0 name bt raw desc)
            k).successful_items
          + (processingStateAfter f now
              (create_batch_job jobId ids now0 name bt raw desc)
              k).failed_items
      ∧ (processingStateAfter f now
          (create_batch_job jobId ids now0 name bt raw desc)
          k).processed_items
        ≤ (processingStateAfter f now
            (create_batch_job jobId ids now0 name bt raw desc) k).total_items
      ∧ (processingStateAfter f now
          (create_batch_job jobId ids now0 name bt raw desc) k).total_items
        = (create_batch_job jobId ids now0 name bt raw desc).total_items
      ∧ (create_batch_job jobId ids now0 name bt raw desc).total_items
        = (create_batch_job jobId ids now0 name bt raw desc).items.length
      ∧ (process_batch (some f) now
          (create_batch_job jobId ids now0 name bt raw desc)).processed_items
        = (process_batch (some f) now
            (create_batch_job jobId ids now0 name bt raw
              desc)).successful_items
          + (process_batch (some f) now
              (create_batch_job jobId ids now0 name bt raw desc)).failed_items
      ∧ (process_batch (some f) now
          (create_batch_job jobId ids now0 name bt raw desc)).processed_items
        ≤ (process_batch (some f) now
            (create_batch_job jobId ids now0 name bt raw desc)).total_items
      ∧ (process_batch (some f) now
          (create_batch_job jobId ids now0 name bt raw desc)).total_items
        = (create_batch_job jobId ids now0 name bt raw desc).total_items := by
  set job := create_batch_job jobId ids now0 name bt raw desc with hjob
  have hzero : job.processed_items = 0 ∧ job.successful_items = 0
      ∧ job.failed_items = 0 ∧ job.total_items = job.items.length :=
    ⟨rfl, rfl, rfl, rfl⟩
  have htake := List.length_eq_length_filter_add
    (l := job.items.take k) (fun it => (processOneItem f job.batch_type now it).2)
  have hall := List.length_eq_length_filter_add
    (l := job.items) (fun it => (processOneItem f job.batch_type now it).2)
  simp only [processingStateAfter, process_batch]
  rw [process_items_spec, process_items_spec]
  simp only [hzero.1, hzero.2.1, hzero.2.2.1, Nat.zero_add]
  refine ⟨by omega, ?_, by trivial, rfl, by omega, ?_, by trivial⟩
  · rw [hzero.2.2.2, List.length_take]
    omega
  · rw [hzero.2.2.2]

/-- A completed one-item job whose item status is `"Completed"`, exercising
the CSV round trip. -/
def jobC7 : BatchJob :=
  { id := "j7"
    name := "done-job"
    batch_type := BatchType.PAYMENT
    items := [{ id := "i1"
                data := [("amount", "10")]
                status := "Completed"
                error_message := none
                processed_at := some 5 }]
    description := ""
    created_at := 0
    updated_at := 5
    started_at := some 0
    completed_at := some 5
    status := BatchStatus.COMPLETED
    total_items := 1
    processed_items := 1
    successful_items := 1
    failed_items := 0 }

/-- C7 counterexample: exporting `jobC7` to CSV rows and re-importing them
yields a job with the same item count but item status `"Pending"`, not the
original `"Completed"` — the claim's per-item status preservation fails. -/
theorem C7_roundtrip_counterexample :
    export_to_csv jobC7 ≠ none
      ∧ (import_batch_from_csv "j8" (fun n => toString n) 6
            ((export_to_csv jobC7).getD ([], [])).2 jobC7.batch_type none
            "").items.length = jobC7.items.length
      ∧ itemStatuses
          (import_batch_from_csv "j8" (fun n => toString n) 6
            ((export_to_csv jobC7).getD ([], [])).2 jobC7.batch_type none "")
          ≠ itemStatuses jobC7 := by
  refine ⟨by decide, by decide, by decide⟩

/-- C7 (amended): whenever the CSV export of a job succeeds, re-importing the
exported rows yields a job with the same item count, but every imported item
has status `"Pending"` — per-item statuses are preserved only when all
original items were still `"Pending"`. -/
theorem C7_roundtrip_amended (job : BatchJob) (headers : List String)
    (rows : List (List (String × String))) (jobId : String)
    (ids : Nat → String) (now : Nat) (name : Option String) (desc : String)
    (h : export_to_csv job = some (headers, rows)) :
    (import_batch_from_csv jobId ids now rows job.batch_type name
        desc).items.length = job.items.length
      ∧ ∀ it ∈ (import_batch_from_csv jobId ids now rows job.batch_type name
          desc).items, it.status = "Pending" := by
  have hrows : writeRows (exportHeaders job) job.items = some rows := by
    simp only [export_to_csv] at h
    cases hw : writeRows (exportHeaders job) job.items with
    | none => rw [hw] at h; simp at h
    | some rs =>
      rw [hw] at h
      simp only [Option.some.injEq, Prod.mk.injEq] at h
      rw [h.2]
  constructor
  · have hlen := writeRows_some_length (exportHeaders job) job.items rows hrows
    unfold import_batch_from_csv create_batch_job
    simp [hlen]
  · intro it hit
    unfold import_batch_from_csv create_batch_job at hit
    simp only [List.mem_map] at hit
    obtain ⟨pr, _, hpr⟩ := hit
    rw [← hpr]
    rfl

/-- C7 witness (for the amended claim): the concrete round trip of `jobC7`
preserves the item count and yields a `"Pending"` item. -/
theorem C7_roundtrip_amended_witness :
    (import_batch_from_csv "j8" (fun n => toString n) 6
        ((export_to_csv jobC7).getD ([], [])).2 jobC7.batch_type none
        "").items.length = jobC7.items.length
      ∧ ∀ it ∈ (import_batch_from_csv "j8" (fun n => toString n) 6
          ((export_to_csv jobC7).getD ([], [])).2 jobC7.batch_type none
          "").items, it.status = "Pending" :=
  C7_roundtrip_amended jobC7 ((export_to_csv jobC7).getD ([], [])).1
    ((export_to_csv jobC7).getD ([], [])).2 "j8" (fun n => toString n) 6 none
    "" (by decide)

/-! ## Claim theorems: Session Authority -/

/-- C4: for every user and valid (existing, active, unlocked,
correct-password) credentials, `authenticate` immediately followed by
`validate_session` on the returned session id yields the id of the
authenticated user. -/
theorem C4_authenticate_then_validate (hash : String → String → String)
    (m : AuthManager) (username password : String) (now : Nat) (sid : String)
    (u : User) (hu : get_user_by_username m.users username = some u)
    (hactive : u.active = true) (hnl : u.is_locked now = false)
    (hpw : hash password u.salt = u.password_hash) :
    (authenticate hash m username password now sid).1 = some sid
      ∧ (validate_session (authenticate hash m username password now sid).2
          sid now).1 = some u.id := by
  unfold authenticate
  rw [hu]
  simp only [hactive, hnl, hpw, Bool.true_eq_false, if_false, Bool.false_eq_true,
    ne_eq, not_true_eq_false, if_pos, if_neg, not_false_eq_true]
  refine ⟨by trivial, ?_⟩
  unfold validate_session
  rw [dictGet_dictSet]
  simp only [Nat.add_comm]
  rw [if_neg (by omega : ¬(now + m.session_timeout < now))]

/-- A concrete deterministic stand-in for `_hash_password`, used by the
authentication witnesses. -/
def hashcat : String → String → String := fun password salt => password ++ salt

/-- A concrete active, unlocked user whose password under `hashcat` is
`"pw"`. -/
def aliceU : User :=
  { id := "u1"
    username := "alice"
    email := "a@x.com"
    password_hash := "pwS"
    salt := "S"
    active := true
    failed_login_attempts := 0
    locked_until := none }

/-- A manager holding only `aliceU`, with the default configuration. -/
def mAlice : AuthManager := AuthManager.init [aliceU]

/-- C4 witness: authenticating `aliceU` with the correct password and
immediately validating the returned session id yields her user id. -/
theorem C4_authenticate_then_validate_witness :
    (authenticate hashcat mAlice "alice" "pw" 100 "sid-1").1 = some "sid-1"
      ∧ (validate_session
          (authenticate hashcat mAlice "alice" "pw" 100 "sid-1").2
          "sid-1" 100).1 = some aliceU.id :=
  C4_authenticate_then_validate hashcat mAlice "alice" "pw" 100 "sid-1" aliceU
    (by decide) rfl rfl (by decide)

/-- C6: `create_user` fails — returning no user id and leaving the user table
unchanged — exactly when some existing user has the same username or the same
email under case-insensitive comparison. -/
theorem C6_create_user_duplicate (hash : String → String → String)
    (m : AuthManager) (un em pw salt fid : String) :
    ((create_user hash m un em pw salt fid).1 = none ↔
        ∃ u ∈ m.users, lower u.username = lower un ∨ lower u.email = lower em)
      ∧ ((create_user hash m un em pw salt fid).1 = none →
          (create_user hash m un em pw salt fid).2 = m) := by
  have hiff : ((get_user_by_username m.users un).isSome
        || (get_user_by_email m.users em).isSome) = true ↔
      ∃ u ∈ m.users, lower u.username = lower un ∨ lower u.email = lower em := by
    rw [Bool.or_eq_true]
    unfold get_user_by_username get_user_by_email
    rw [List.find?_isSome, List.find?_isSome]
    constructor
    · rintro (⟨u, hu, hp⟩ | ⟨u, hu, hp⟩)
      · exact ⟨u, hu, Or.inl (by simpa using hp)⟩
      · exact ⟨u, hu, Or.inr (by simpa using hp)⟩
    · rintro ⟨u, hu, hp | hp⟩
      · exact Or.inl ⟨u, hu, by simpa using hp⟩
      · exact Or.inr ⟨u, hu, by simpa using hp⟩
  by_cases hc : ((get_user_by_username m.users un).isSome
      || (get_user_by_email m.users em).isSome) = true
  · unfold create_user
    rw [if_pos hc]
    exact ⟨by simpa using hiff.mp hc, fun _ => rfl⟩
  · unfold create_user
    rw [if_neg hc]
    constructor
    · constructor
      · intro h
        exact (Option.some_ne_none _ h).elim
      · intro hex
        exact absurd (hiff.mpr hex) hc
    · intro h
      exact (Option.some_ne_none _ h).elim

/-- C6 witness: with `aliceU` ("alice") present, creating "Alice" with a
different email fails as a case-insensitive duplicate. -/
theorem C6_create_user_duplicate_witness :
    (create_user hashcat mAlice "Alice" "other@x.com" "pw2" "S2" "u2").1
      = none :=
  (C6_create_user_duplicate hashcat mAlice "Alice" "other@x.com" "pw2" "S2"
      "u2").1.mpr ⟨aliceU, by decide, Or.inl (by decide)⟩

/-- A manager in the default configuration holding a single user and the
given session table. -/
def mgr1 (v : User) (sess : List (String × Session)) : AuthManager :=
  { users := [v]
    active_sessions := sess
    max_failed_attempts := 5
    lockout_duration := 15
    session_timeout := 480 }

theorem get_user_by_username_single (v : User) (un : String)
    (h : lower v.username = lower un) :
    get_user_by_username [v] un = some v := by
  unfold get_user_by_username
  simp [List.find?, h]

theorem updateUser_single (v : User) (f : User → User) :
    updateUser [v] v.id f = [f v] := by
  unfold updateUser
  simp

theorem wrong_attempt_single (hash : String → String → String) (v : User)
    (sess : List (String × Session)) (wrongPw : String) (t : Nat)
    (sid : String) (hactive : v.active = true) (hnl : v.is_locked t = false)
    (hwrong : hash wrongPw v.salt ≠ v.password_hash) :
    authenticate hash (mgr1 v sess) v.username wrongPw t sid =
      (none, mgr1
        { v with
            failed_login_attempts := v.failed_login_attempts + 1
            locked_until := if 5 ≤ v.failed_login_attempts + 1
              then some (t + 15) else v.locked_until } sess) := by
  unfold authenticate
  have hfind : get_user_by_username (mgr1 v sess).users v.username = some v :=
    get_user_by_username_single v v.username rfl
  rw [show (mgr1 v sess).users = [v] from rfl] at hfind
  rw [show (mgr1 v sess).users = [v] from rfl, hfind]
  simp only [hactive, Bool.true_eq_false, if_false, hnl, Bool.false_eq_true]
  rw [if_pos hwrong]
  rw [show (mgr1 v sess).max_failed_attempts = 5 from rfl,
    show (mgr1 v sess).lockout_duration = 15 from rfl]
  rw [updateUser_single]
  simp [mgr1, hactive]

theorem locked_attempt_single (hash : String → String → String) (v : User)
    (sess : List (String × Session)) (pw : String) (t : Nat) (sid : String)
    (hl : v.is_locked t = true) :
    (authenticate hash (mgr1 v sess) v.username pw t sid).1 = none := by
  unfold authenticate
  rw [show (mgr1 v sess).users = [v] from rfl,
    get_user_by_username_single v v.username rfl]
  by_cases ha : v.active = false
  · simp [ha]
  · have ha' : v.active = true := by
      revert ha
      cases v.active <;> simp
    simp [ha', hl]

theorem right_attempt_single (hash : String → String → String) (v : User)
    (sess : List (String × Session)) (pw : String) (t : Nat) (sid : String)
    (hactive : v.active = true) (hnl : v.is_locked t = false)
    (hpw : hash pw v.salt = v.password_hash) :
    (authenticate hash (mgr1 v sess) v.username pw t sid).1 = some sid := by
  unfold authenticate
  rw [show (mgr1 v sess).users = [v] from rfl,
    get_user_by_username_single v v.username rfl]
  simp [hactive, hnl, hpw]

/-- The manager state after a run of wrong-password `authenticate` attempts
against a fresh single-user table in the default configuration. -/
def afterWrongAttempts (hash : String → String → String) (u : User)
    (wrongPw : String) (ts : List Nat) : AuthManager :=
  authAttempts hash (AuthManager.init [u]) u.username wrongPw ts

/-- C1: for a fresh user, after exactly `max_failed_attempts = 5` consecutive
wrong-password attempts (and not before), `locked_until` is set to the time
of the 5th attempt plus the default 15-minute lockout; a subsequent
correct-password attempt still fails while `now < locked_until`, and succeeds
once `locked_until` has elapsed or after `unlock_user`. -/
theorem C1_lockout_after_failed_attempts (hash : String → String → String)
    (u : User) (wrongPw rightPw sid : String)
    (t1 t2 t3 t4 t5 now now2 : Nat)
    (hactive : u.active = true) (hfa : u.failed_login_attempts = 0)
    (hlu : u.locked_until = none)
    (hwrong : hash wrongPw u.salt ≠ u.password_hash)
    (hright : hash rightPw u.salt = u.password_hash)
    (hlock : now < t5 + 15) (hexp : t5 + 15 ≤ now2) :
    (get_user (afterWrongAttempts hash u wrongPw [t1, t2, t3, t4]).users u.id
        = some { u with failed_login_attempts := 4, locked_until := none })
      ∧ (get_user (afterWrongAttempts hash u wrongPw
            [t1, t2, t3, t4, t5]).users u.id
          = some { u with
                     failed_login_attempts := 5
                     locked_until := some (t5 + 15) })
      ∧ ((authenticate hash (afterWrongAttempts hash u wrongPw
            [t1, t2, t3, t4, t5]) u.username rightPw now sid).1 = none)
      ∧ ((authenticate hash (afterWrongAttempts hash u wrongPw
            [t1, t2, t3, t4, t5]) u.username rightPw now2 sid).1 = some sid)
      ∧ ((authenticate hash
            (unlock_user (afterWrongAttempts hash u wrongPw
              [t1, t2, t3, t4, t5]) u.id).2
            u.username rightPw now sid).1 = some sid) := by
  have hinit : AuthManager.init [u] = mgr1 u [] := rfl
  have s1 : authenticate hash (mgr1 u []) u.username wrongPw t1 "" =
      (none, mgr1 { u with failed_login_attempts := 1, locked_until := none }
        []) := by
    rw [wrong_attempt_single hash u [] wrongPw t1 "" hactive
      (by simp [User.is_locked, hlu]) hwrong]
    simp [hfa, hlu]
  have s2 : authenticate hash
      (mgr1 { u with failed_login_attempts := 1, locked_until := none } [])
      u.username wrongPw t2 "" =
      (none, mgr1 { u with failed_login_attempts := 2, locked_until := none }
        []) := by
    have := wrong_attempt_single hash
      { u with failed_login_attempts := 1, locked_until := none } [] wrongPw
      t2 "" (by simpa using hactive) (by simp [User.is_locked])
      (by simpa using hwrong)
    simpa using this
  have s3 : authenticate hash
      (mgr1 { u with failed_login_attempts := 2, locked_until := none } [])
      u.username wrongPw t3 "" =
      (none, mgr1 { u with failed_login_attempts := 3, locked_until := none }
        []) := by
    have := wrong_attempt_single hash
      { u with failed_login_attempts := 2, locked_until := none } [] wrongPw
      t3 "" (by simpa using hactive) (by simp [User.is_locked])
      (by simpa using hwrong)
    simpa using this
  have s4 : authenticate hash
      (mgr1 { u with failed_login_attempts := 3, locked_until := none } [])
      u.username wrongPw t4 "" =
      (none, mgr1 { u with failed_login_attempts := 4, locked_until := none }
        []) := by
    have := wrong_attempt_single hash
      { u with failed_login_attempts := 3, locked_until := none } [] wrongPw
      t4 "" (by simpa using hactive) (by simp [User.is_locked])
      (by simpa using hwrong)
    simpa using this
  have s5 : authenticate hash
      (mgr1 { u with failed_login_attempts := 4, locked_until := none } [])
      u.username wrongPw t5 "" =
      (none, mgr1 { u with
        failed_login_attempts := 5
        locked_until := some (t5 + 15) } []) := by
    have := wrong_attempt_single hash
      { u with failed_login_attempts := 4, locked_until := none } [] wrongPw
      t5 "" (by simpa using hactive) (by simp [User.is_locked])
      (by simpa using hwrong)
    simpa using this
  have chain4 : afterWrongAttempts hash u wrongPw [t1, t2, t3, t4] =
      mgr1 { u with failed_login_attempts := 4, locked_until := none } [] := by
    simp only [afterWrongAttempts, authAttempts, hinit, s1, s2, s3, s4]
  have chain5 : afterWrongAttempts hash u wrongPw [t1, t2, t3, t4, t5] =
      mgr1 { u with
        failed_login_attempts := 5
        locked_until := some (t5 + 15) } [] := by
    simp only [afterWrongAttempts, authAttempts, hinit, s1, s2, s3, s4, s5]
  refine ⟨?_, ?_, ?_, ?_, ?_⟩
  · rw [chain4]
    unfold get_user mgr1
    simp [List.find?]
  · rw [chain5]
    unfold get_user mgr1
    simp [List.find?]
  · rw [chain5]
    have := locked_attempt_single hash
      { u with failed_login_attempts := 5, locked_until := some (t5 + 15) }
      [] rightPw now sid (by simp [User.is_locked, hlock])
    simpa using this
  · rw [chain5]
    have := right_attempt_single hash
      { u with failed_login_attempts := 5, locked_until := some (t5 + 15) }
      [] rightPw now2 sid (by simpa using hactive)
      (by simp [User.is_locked]; omega) (by simpa using hright)
    simpa using this
  · rw [chain5]
    have hunlock : (unlock_user
        (mgr1 { u with
          failed_login_attempts := 5
          locked_until := some (t5 + 15) } []) u.id).2 =
        mgr1 { u with failed_login_attempts := 0, locked_until := none }
          [] := by
      unfold unlock_user
      rw [show (mgr1 { u with
          failed_login_attempts := 5
          locked_until := some (t5 + 15) } []).users =
        [{ u with
          failed_login_attempts := 5
          locked_until := some (t5 + 15) }] from rfl]
      unfold get_user
      simp [List.find?, updateUser, mgr1]
    rw [hunlock]
    have := right_attempt_single hash
      { u with failed_login_attempts := 0, locked_until := none }
      [] rightPw now sid (by simpa using hactive)
      (by simp [User.is_locked]) (by simpa using hright)
    simpa using this

/-- C1 witness: `aliceU` locked by 5 wrong attempts at minutes 1-5, rejected
with the correct password at minute 6, accepted at minute 20, and accepted at
minute 6 after `unlock_user`. -/
theorem C1_lockout_after_failed_attempts_witness :
    (get_user (afterWrongAttempts hashcat aliceU "bad" [1, 2, 3, 4]).users
        aliceU.id
        = some { aliceU with failed_login_attempts := 4, locked_until := none })
      ∧ (get_user (afterWrongAttempts hashcat aliceU "bad"
            [1, 2, 3, 4, 5]).users aliceU.id
          = some { aliceU with
                     failed_login_attempts := 5
                     locked_until := some (5 + 15) })
      ∧ ((authenticate hashcat
            (afterWrongAttempts hashcat aliceU "bad" [1, 2, 3, 4, 5])
            aliceU.username "pw" 6 "s").1 = none)
      ∧ ((authenticate hashcat
            (afterWrongAttempts hashcat aliceU "bad" [1, 2, 3, 4, 5])
            aliceU.username "pw" 20 "s").1 = some "s")
      ∧ ((authenticate hashcat
            (unlock_user
              (afterWrongAttempts hashcat aliceU "bad" [1, 2, 3, 4, 5])
              aliceU.id).2
            aliceU.username "pw" 6 "s").1 = some "s") :=
  C1_lockout_after_failed_attempts hashcat aliceU "bad" "pw" "s" 1 2 3 4 5 6
    20 rfl rfl rfl (by decide) (by decide) (by decide) (by decide)
